import Mathlib

/-!
Shallow embedding of the wazz-audio-backend job-orchestration core
(`routers/audio.py` and `worker_health.py`).

Conventions of the embedding:
* machine integers and database ids are `Nat`; timestamps are `Nat` (seconds);
  the float `progress` field is only ever created as `0.0` and passed through
  unchanged by the embedded endpoints, so it is carried as a `Nat`;
* fallible external calls (file write, Celery `send_task`, usage tracking,
  Celery `inspect` probes) are modelled as `Except String _` values supplied
  as inputs: `.ok` is a normal return, `.error e` is a raised exception whose
  `str(e)` is `e`;
* the file store is the list of paths that exist on disk; the database is the
  list of persisted job rows;
* `HTTPException(status_code, detail)` is `HTTPError`;
* Python truthiness on `Optional[str]` / `Optional[int]` values (`if not x`)
  is `pyFalsy` / `pyFalsyNat` (`None`, `""` and `0` are falsy).
-/

namespace WazzAudio

/-- Model of `fastapi.HTTPException`: status code plus detail string. -/
structure HTTPError where
  status_code : Nat
  detail : String
deriving Repr, DecidableEq

/-- The status code of the error, if the result is an error. -/
def errCode {α : Type} : Except HTTPError α → Option Nat
  | .error e => some e.status_code
  | .ok _ => none

/-- Python truthiness test for `Optional[str]`: `None` and `""` are falsy. -/
def pyFalsy : Option String → Bool
  | none => true
  | some s => s.isEmpty

/-- Python truthiness test for `Optional[int]`: `None` and `0` are falsy. -/
def pyFalsyNat : Option Nat → Bool
  | none => true
  | some n => n == 0

/-- Index of the last `.` in a list of characters, if any. -/
def lastDotIdx (cs : List Char) : Option Nat :=
  ((List.range cs.length).filter fun i => cs.getD i ' ' = '.').getLast?

/-- The extension part of `os.path.splitext` (for a bare filename, no
directory separators): the suffix from the last dot on, except that a name
whose part before the last dot is all dots has no extension. -/
def splitextExt (s : String) : String :=
  match lastDotIdx s.data with
  | none => ""
  | some i => if (s.data.take i).any (fun c => c ≠ '.') then ⟨s.data.drop i⟩ else ""

/-- The stem part of `os.path.splitext` (for a bare filename). -/
def splitextStem (s : String) : String :=
  match lastDotIdx s.data with
  | none => s
  | some i => if (s.data.take i).any (fun c => c ≠ '.') then ⟨s.data.take i⟩ else s

/-- `str.lower()`, at the character level so it reduces in the kernel. -/
def strToLower (s : String) : String :=
  ⟨s.data.map Char.toLower⟩

/-- `str.replace(".", "")`: removing every dot, at the character level. -/
def stripDots (s : String) : String :=
  ⟨s.data.filter (fun c => c ≠ '.')⟩

/-- The configuration surface used by the audio router
(`wazz_shared.config.get_shared_settings()`). -/
structure Settings where
  allowed_audio_formats : List String
  upload_dir : String
  max_file_size_mb : Nat
  file_expiry_hours : Nat
deriving Repr, DecidableEq

/-- One row of the `AudioProcessingJob` table (`wazz_shared.models`), with the
fields the router reads or writes.  `job_metadata` carries the stored Celery
task id (`{"celery_task_id": task.id}` in the source). -/
structure AudioProcessingJob where
  job_id : String
  filename : String
  original_filename : String
  file_size : Nat
  file_format : String
  duration : Option Nat
  sample_rate : Option Nat
  channels : Option Nat
  input_file_path : String
  output_file_path : Option String
  user_id : Option Nat
  guest_id : Option String
  status : String
  progress : Nat
  processing_type : Option String
  error_message : Option String
  job_metadata : Option String
  project_name : Option String
  created_at : Nat
  started_at : Option Nat
  completed_at : Option Nat
  expires_at : Nat
deriving Repr, DecidableEq

/-- The mutable world the router acts on: the job table and the file store
(the set of paths that exist on disk). -/
structure ServerState where
  jobs : List AudioProcessingJob
  storage : List String
deriving Repr, DecidableEq

/-- Response model `AudioUploadResponse`. -/
structure AudioUploadResponse where
  job_id : String
  status : String
  filename : String
  original_filename : String
  file_size : Nat
  file_format : String
  duration : Option Nat
  sample_rate : Option Nat
  channels : Option Nat
  user_id : Option Nat
  guest_id : Option String
  created_at : Nat
  expires_at : Nat
  message : String
deriving Repr, DecidableEq

/-- The environment of one call to `upload_audio`: configuration, the UUIDs
drawn during the call, the clock, and the outcome of each external call. -/
structure UploadEnv where
  settings : Settings
  /-- `uuid.uuid4()` used for the stored filename. -/
  uuid_filename : String
  /-- `uuid.uuid4()` used as fallback guest id when no request object exists. -/
  uuid_guest : String
  /-- the generated `job_id` column default. -/
  job_uuid : String
  /-- `datetime.now(timezone.utc)`, in seconds. -/
  now : Nat
  /-- outcome of `open`/`copyfileobj` writing the upload to disk. -/
  write_result : Except String Unit
  /-- when the write raises midway, whether a half-written file was left. -/
  leftover_on_write_failure : Bool
  /-- `os.path.getsize` after a successful write. -/
  file_size : Nat
  /-- `get_audio_metadata` output (absent when extraction failed). -/
  duration : Option Nat
  sample_rate : Option Nat
  channels : Option Nat
  /-- `celery_app.send_task(...)`: the task id, or the raised error. -/
  dispatch_result : Except String String
  /-- `track_file_upload(...)`: the usage-recorder outcome. -/
  track_result : Except String Unit
deriving Repr

/-- `POST /audio/upload` (`upload_audio` in `routers/audio.py`).

Mirrors the source order: extension allow-list check; write to disk;
size-ceiling check (deleting the file on failure); metadata extraction;
owner resolution (`user_id` from the authenticated user, else `guest_id`
from the `X-Guest-ID` header when a request object exists, else a fresh
UUID); job row insert with `status="pending"`; then a `try` block that
dispatches the Celery task, stores the task id, and calls
`track_file_upload`, whose `except` arm marks the job `failed`. -/
def upload_audio (env : UploadEnv) (file_filename : String)
    (processing_type : Option String) (requestPresent : Bool)
    (headerGuest : Option String) (current_user : Option Nat)
    (st : ServerState) : Except HTTPError AudioUploadResponse × ServerState :=
  let file_extension := strToLower (splitextExt file_filename)
  if file_extension ∉ env.settings.allowed_audio_formats then
    (.error ⟨400, "Unsupported file format. Allowed formats: " ++
        String.intercalate ", " env.settings.allowed_audio_formats⟩, st)
  else
    let unique_filename := env.uuid_filename ++ file_extension
    let absolute_file_path := env.settings.upload_dir ++ "/" ++ unique_filename
    match env.write_result with
    | .error e =>
        (.error ⟨500, "Failed to save file: " ++ e⟩,
         if env.leftover_on_write_failure then
           { st with storage := absolute_file_path :: st.storage }
         else st)
    | .ok () =>
      let st1 : ServerState := { st with storage := absolute_file_path :: st.storage }
      let file_size := env.file_size
      let max_size_bytes := env.settings.max_file_size_mb * 1024 * 1024
      if file_size > max_size_bytes then
        (.error ⟨413, "File too large. Maximum size: " ++
            toString env.settings.max_file_size_mb ++ "MB"⟩,
         { st1 with storage := st1.storage.erase absolute_file_path })
      else
        let user_id := current_user
        let guest_id : Option String :=
          if current_user.isSome then none
          else if requestPresent then headerGuest else some env.uuid_guest
        let expires_at := env.now + env.settings.file_expiry_hours * 3600
        let job0 : AudioProcessingJob :=
          { job_id := env.job_uuid
            filename := unique_filename
            original_filename := file_filename
            file_size := file_size
            file_format := stripDots file_extension
            duration := env.duration
            sample_rate := env.sample_rate
            channels := env.channels
            input_file_path := absolute_file_path
            output_file_path := none
            user_id := user_id
            guest_id := guest_id
            status := "pending"
            progress := 0
            processing_type := processing_type
            error_message := none
            job_metadata := none
            project_name := none
            created_at := env.now
            started_at := none
            completed_at := none
            expires_at := expires_at }
        let job1 : AudioProcessingJob :=
          match env.dispatch_result with
          | .ok task_id =>
            let jobT := { job0 with job_metadata := some task_id }
            match env.track_result with
            | .ok _ => jobT
            | .error e =>
                { jobT with
                  status := "failed"
                  error_message := some ("Failed to queue processing task: " ++ e) }
          | .error e =>
              { job0 with
                status := "failed"
                error_message := some ("Failed to queue processing task: " ++ e) }
        (.ok { job_id := job1.job_id, status := job1.status, filename := job1.filename,
               original_filename := job1.original_filename, file_size := job1.file_size,
               file_format := job1.file_format, duration := job1.duration,
               sample_rate := job1.sample_rate, channels := job1.channels,
               user_id := job1.user_id, guest_id := job1.guest_id,
               created_at := job1.created_at, expires_at := job1.expires_at,
               message := "File uploaded successfully. Processing will begin shortly." },
         { st1 with jobs := job1 :: st1.jobs })

/-- `db.query(AudioProcessingJob).filter(AudioProcessingJob.job_id == job_id).first()`. -/
def findJob (jobs : List AudioProcessingJob) (jid : String) : Option AudioProcessingJob :=
  jobs.find? (fun j => j.job_id == jid)

/-- `request.headers.get("X-Guest-ID") if request else None`. -/
def resolveGuestHeader (requestPresent : Bool) (headerGuest : Option String) : Option String :=
  if requestPresent then headerGuest else none

/-- The ownership block inlined identically (up to the detail string) in
`rename_project`, `delete_project`, `get_job_status` and
`download_processed_audio`:

    if current_user:
        if job.user_id != current_user.id: raise 403
    else:
        guest_id = request.headers.get("X-Guest-ID") if request else None
        if not guest_id or job.guest_id != guest_id: raise 403

Returns the raised error, or `none` when the check passes. -/
def ownershipCheck (job : AudioProcessingJob) (requestPresent : Bool)
    (headerGuest : Option String) (current_user : Option Nat)
    (detail : String) : Option HTTPError :=
  match current_user with
  | some uid =>
      if job.user_id ≠ some uid then some ⟨403, detail⟩ else none
  | none =>
      let guest_id := resolveGuestHeader requestPresent headerGuest
      if pyFalsy guest_id then some ⟨403, detail⟩
      else if job.guest_id ≠ guest_id then some ⟨403, detail⟩
      else none

/-- The identity of the caller matches the populated owner arm of the job:
the positive reading of `ownershipCheck` (a nonempty guest header equal to
the `guest_id` of the job, or an authenticated user equal to its
`user_id`). -/
def callerOwns (job : AudioProcessingJob) (requestPresent : Bool)
    (headerGuest : Option String) (current_user : Option Nat) : Prop :=
  match current_user with
  | some uid => job.user_id = some uid
  | none => ∃ g, resolveGuestHeader requestPresent headerGuest = some g ∧
      ¬ g.isEmpty = true ∧ job.guest_id = some g

instance (job : AudioProcessingJob) (rp : Bool) (hg : Option String) (cu : Option Nat) :
    Decidable (callerOwns job rp hg cu) := by
  unfold callerOwns
  match cu with
  | some uid => exact inferInstanceAs (Decidable (job.user_id = some uid))
  | none => exact inferInstanceAs (Decidable (∃ g, _ ∧ _ ∧ _))

/-- Response model `AudioJobStatusResponse`. -/
structure AudioJobStatusResponse where
  job_id : String
  status : String
  progress : Nat
  filename : String
  original_filename : String
  processing_type : Option String
  error_message : Option String
  created_at : Nat
  started_at : Option Nat
  completed_at : Option Nat
  output_available : Bool
deriving Repr, DecidableEq

/-- `GET /audio/status/{job_id}` (`get_job_status`): fetch, ownership check,
then the status view with the derived `output_available` boolean. -/
def get_job_status (jobs : List AudioProcessingJob) (jid : String)
    (requestPresent : Bool) (headerGuest : Option String)
    (current_user : Option Nat) : Except HTTPError AudioJobStatusResponse :=
  match findJob jobs jid with
  | none => .error ⟨404, "Job not found"⟩
  | some job =>
    match ownershipCheck job requestPresent headerGuest current_user
        "Not authorized to access this job" with
    | some e => .error e
    | none =>
      .ok { job_id := job.job_id
            status := job.status
            progress := job.progress
            filename := job.filename
            original_filename := job.original_filename
            processing_type := job.processing_type
            error_message := job.error_message
            created_at := job.created_at
            started_at := job.started_at
            completed_at := job.completed_at
            output_available := (job.status == "completed" && job.output_file_path.isSome) }

/-- The `FileResponse` returned by the download endpoint. -/
structure FileResponseModel where
  path : String
  media_type : String
  filename : String
deriving Repr, DecidableEq

/-- `GET /audio/download/{job_id}` (`download_processed_audio`): fetch,
ownership check, completed-status check, output-path set check, storage
existence check, then the streamed file with the
`{stem}_updated{ext}` download name.  `guessedType` is the result of
`mimetypes.guess_type`; the `track_file_download` call that precedes the
return is the Usage Recorder, an external collaborator whose §6 contract is
fire-and-forget, so it carries no failure arm here. -/
def download_processed_audio (jobs : List AudioProcessingJob)
    (storage : List String) (jid : String) (requestPresent : Bool)
    (headerGuest : Option String) (current_user : Option Nat)
    (guessedType : Option String) : Except HTTPError FileResponseModel :=
  match findJob jobs jid with
  | none => .error ⟨404, "Job not found"⟩
  | some job =>
    match ownershipCheck job requestPresent headerGuest current_user
        "Not authorized to access this job" with
    | some e => .error e
    | none =>
      if job.status ≠ "completed" then
        .error ⟨400, "Job is not completed yet. Current status: " ++ job.status⟩
      else if pyFalsy job.output_file_path then
        .error ⟨500, "Output file path not set"⟩
      else
        let out_path := job.output_file_path.getD ""
        if out_path ∉ storage then
          .error ⟨500, "Processed file not found on server"⟩
        else
          let content_type := guessedType.getD "audio/wav"
          let download_filename :=
            splitextStem job.original_filename ++ "_updated" ++
              splitextExt job.original_filename
          .ok { path := out_path
                media_type := content_type
                filename := download_filename }

/-- The sort key of `order_by(desc(AudioProcessingJob.created_at))`. -/
def createdDesc (a b : AudioProcessingJob) : Prop :=
  b.created_at ≤ a.created_at

instance : DecidableRel createdDesc :=
  fun a b => Nat.decLe b.created_at a.created_at

instance : IsTotal AudioProcessingJob createdDesc :=
  ⟨fun a b => Nat.le_total b.created_at a.created_at⟩

instance : IsTrans AudioProcessingJob createdDesc :=
  ⟨fun _ _ _ h1 h2 => Nat.le_trans h2 h1⟩

/-- The owner scoping of the list query: filter on `user_id` when the user
id is truthy, else on `guest_id`. -/
def ownerScopedQuery (jobs : List AudioProcessingJob) (user_id : Option Nat)
    (guest_id : Option String) : List AudioProcessingJob :=
  if !(pyFalsyNat user_id) then jobs.filter (fun j => j.user_id == user_id)
  else jobs.filter (fun j => j.guest_id == guest_id)

/-- `if status_filter: query = query.filter(status == status_filter)`:
a falsy (absent or empty) filter string filters nothing. -/
def statusFiltered (q : List AudioProcessingJob) (status_filter : Option String) :
    List AudioProcessingJob :=
  match status_filter with
  | some s => if s.isEmpty then q else q.filter (fun j => j.status == s)
  | none => q

/-- `GET /audio/projects` (`list_projects`): resolve identity (401 when both
arms are falsy), scope the query to the owner arm, apply the optional status
filter, order by `created_at` descending, then window with offset `skip`
and `limit`. -/
def list_projects (jobs : List AudioProcessingJob) (skip limit : Nat)
    (status_filter : Option String) (requestPresent : Bool)
    (headerGuest : Option String) (current_user : Option Nat) :
    Except HTTPError (List AudioProcessingJob) :=
  let user_id := current_user
  let guest_id := if current_user.isNone
    then resolveGuestHeader requestPresent headerGuest else none
  if pyFalsyNat user_id && pyFalsy guest_id then
    .error ⟨401, "Not authenticated"⟩
  else
    let q2 := statusFiltered (ownerScopedQuery jobs user_id guest_id) status_filter
    let sorted := q2.insertionSort createdDesc
    .ok ((sorted.drop skip).take limit)

/-- `PATCH /audio/projects/{job_id}` (`rename_project`): fetch, ownership
check, then update `project_name` only.  Returns the updated row and the
updated table. -/
def rename_project (jobs : List AudioProcessingJob) (jid : String)
    (new_name : String) (requestPresent : Bool) (headerGuest : Option String)
    (current_user : Option Nat) :
    Except HTTPError AudioProcessingJob × List AudioProcessingJob :=
  match findJob jobs jid with
  | none => (.error ⟨404, "Project not found"⟩, jobs)
  | some job =>
    match ownershipCheck job requestPresent headerGuest current_user
        "Not authorized" with
    | some e => (.error e, jobs)
    | none =>
      let job1 := { job with project_name := some new_name }
      (.ok job1, jobs.map (fun j => if j.job_id == jid then job1 else j))

/-- `DELETE /audio/projects/{job_id}` (`delete_project`): fetch, ownership
check, best-effort removal of the input and output files
(`if path and os.path.exists(path)`), then removal of the row. -/
def delete_project (jobs : List AudioProcessingJob) (storage : List String)
    (jid : String) (requestPresent : Bool) (headerGuest : Option String)
    (current_user : Option Nat) :
    Except HTTPError String × List AudioProcessingJob × List String :=
  match findJob jobs jid with
  | none => (.error ⟨404, "Project not found"⟩, jobs, storage)
  | some job =>
    match ownershipCheck job requestPresent headerGuest current_user
        "Not authorized" with
    | some e => (.error e, jobs, storage)
    | none =>
      let st1 := if !job.input_file_path.isEmpty ∧ job.input_file_path ∈ storage
        then storage.erase job.input_file_path else storage
      let st2 := match job.output_file_path with
        | some p => if !p.isEmpty ∧ p ∈ st1 then st1.erase p else st1
        | none => st1
      (.ok ("Project " ++ jid ++ " deleted"),
       jobs.filter (fun j => !(j.job_id == jid)), st2)

/-! ## Worker health (`worker_health.py`)

Each `celery_app.control.inspect(timeout=...)` round trip is an input: an
`.error e` is a raised exception, an `.ok` value is what the broker returned
(`none` models a `None` reply, as `inspect` returns when no worker answers
within the timeout). -/

/-- What one `inspect` object yields to `_check_workers_available_sync`:
`stats()` (worker name → stats dict, carried as the key list) and
`active_queues()` (worker name → list of queue names). -/
structure InspectSnapshot where
  stats : Option (List String)
  active_queues : Option (List (String × List String))
deriving Repr, DecidableEq

/-- The dict returned by `_check_workers_available_sync`. -/
structure WorkerHealth where
  available : Bool
  worker_count : Nat
  workers : List String
  queues : List String
  error : Option String
deriving Repr, DecidableEq

/-- `_check_workers_available_sync` (also the body of the async and sync
wrappers `check_workers_available` / `check_workers_available_sync`):
unavailable with a message when the probe raises or no worker reports stats;
otherwise available with the worker names and the set of active queues. -/
def check_workers_available_sync (probe : Except String InspectSnapshot) :
    WorkerHealth :=
  match probe with
  | .error e =>
      { available := false, worker_count := 0, workers := [], queues := [],
        error := some ("Unable to connect to workers: " ++ e) }
  | .ok snap =>
      match snap.stats with
      | none =>
          { available := false, worker_count := 0, workers := [], queues := [],
            error := some "No workers are currently running. Please start the worker service." }
      | some names =>
        if names.isEmpty then
          { available := false, worker_count := 0, workers := [], queues := [],
            error := some "No workers are currently running. Please start the worker service." }
        else
          let all_queues := match snap.active_queues with
            | none => []
            | some aq => ((aq.map Prod.snd).flatten).dedup
          { available := true, worker_count := names.length, workers := names,
            queues := all_queues, error := none }

/-- `_check_queue_available_sync`: whether any worker advertises listening on
`queue_name`; `False` when the probe raises or no worker answers. -/
def check_queue_available_sync
    (probe : Except String (Option (List (String × List String))))
    (queue_name : String) : Bool :=
  match probe with
  | .error _ => false
  | .ok none => false
  | .ok (some aq) => aq.any (fun wq => wq.2.any (fun n => n == queue_name))

/-- One entry of `inspect.scheduled()` / `inspect.reserved()`: the routing
key under `delivery_info`, when present. -/
structure TaskInfo where
  routing_key : Option String
deriving Repr, DecidableEq

/-- Count of tasks across workers whose routing key equals `queue_name`. -/
def countQueueTasks (m : Option (List (String × List TaskInfo)))
    (queue_name : String) : Nat :=
  match m with
  | none => 0
  | some m =>
      (m.map (fun wt => (wt.2.filter
        (fun t => t.routing_key == some queue_name)).length)).sum

/-- `_get_queue_length_sync`: scheduled + reserved tasks routed to
`queue_name`, or `-1` when the probe raises. -/
def get_queue_length_sync
    (probe : Except String ((Option (List (String × List TaskInfo))) ×
      (Option (List (String × List TaskInfo))))) (queue_name : String) : Int :=
  match probe with
  | .error _ => -1
  | .ok (scheduled, reserved) =>
      ((countQueueTasks scheduled queue_name +
        countQueueTasks reserved queue_name : Nat) : Int)

/-- The dict returned by `get_worker_health_summary` /
`get_worker_health_summary_sync` (the two have the same body; the async one
only offloads each probe to an executor). -/
structure HealthSummary where
  available : Bool
  worker_count : Nat
  workers : List String
  queues : List String
  error : Option String
  audio_processing_queue_ok : Bool
  maintenance_queue_ok : Bool
  audio_queue_length : Int
  status : String
  message : Option String
deriving Repr, DecidableEq

/-- `get_worker_health_summary_sync` (and the async
`get_worker_health_summary`): the spread of the availability check, the two
per-queue checks, the audio queue length (only probed when the audio queue is
ok), the aggregate status, and the human-readable message. -/
def get_worker_health_summary_sync
    (probeWorkers : Except String InspectSnapshot)
    (probeAudio probeMaint : Except String (Option (List (String × List String))))
    (probeLen : Except String ((Option (List (String × List TaskInfo))) ×
      (Option (List (String × List TaskInfo))))) : HealthSummary :=
  let health := check_workers_available_sync probeWorkers
  let audio_queue_ok := check_queue_available_sync probeAudio "audio_processing"
  let maintenance_queue_ok := check_queue_available_sync probeMaint "maintenance"
  { available := health.available
    worker_count := health.worker_count
    workers := health.workers
    queues := health.queues
    error := health.error
    audio_processing_queue_ok := audio_queue_ok
    maintenance_queue_ok := maintenance_queue_ok
    audio_queue_length :=
      if audio_queue_ok then get_queue_length_sync probeLen "audio_processing" else -1
    status := if health.available && audio_queue_ok then "healthy" else "unhealthy"
    message := if !health.available then health.error
      else some "Workers are operational" }

/-! ## Concrete fixtures used by witnesses and counterexamples -/

/-- A configuration with a `.wav`/`.mp3` allow-list and a 10 MB ceiling. -/
def settings0 : Settings :=
  { allowed_audio_formats := [".wav", ".mp3"], upload_dir := "uploads",
    max_file_size_mb := 10, file_expiry_hours := 24 }

/-- A healthy upload environment: write, dispatch and tracking all succeed. -/
def env0 : UploadEnv :=
  { settings := settings0, uuid_filename := "u-file", uuid_guest := "u-guest",
    job_uuid := "job-1", now := 1000, write_result := .ok (),
    leftover_on_write_failure := false, file_size := 2048, duration := none,
    sample_rate := none, channels := none, dispatch_result := .ok "task-1",
    track_result := .ok () }

/-- An empty job table and empty file store. -/
def st0 : ServerState := { jobs := [], storage := [] }

/-- `env0` with `celery_app.send_task` raising. -/
def envDispatchFail : UploadEnv := { env0 with dispatch_result := .error "broker down" }

/-- `env0` with `track_file_upload` raising after a successful dispatch. -/
def envTrackFail : UploadEnv := { env0 with track_result := .error "usage db unavailable" }

/-- `env0` with the file write raising. -/
def envWriteFail : UploadEnv := { env0 with write_result := .error "disk full" }

/-- `env0` with a measured size above the 10 MB ceiling. -/
def envTooBig : UploadEnv := { env0 with file_size := 99999999 }

/-- A job row with the given id, owner arms, status, output path and
creation time. -/
def mkJob (jid : String) (uid : Option Nat) (gid : Option String)
    (stat : String) (outp : Option String) (created : Nat) :
    AudioProcessingJob :=
  { job_id := jid, filename := "f.wav", original_filename := "orig.wav",
    file_size := 5, file_format := "wav", duration := none, sample_rate := none,
    channels := none, input_file_path := "uploads/f.wav",
    output_file_path := outp, user_id := uid, guest_id := gid, status := stat,
    progress := 0, processing_type := none, error_message := none,
    job_metadata := none, project_name := none, created_at := created,
    started_at := none, completed_at := none, expires_at := created + 1 }

/-- A completed guest-owned job whose output path is not in storage. -/
def jobC : AudioProcessingJob :=
  mkJob "jc" none (some "gOwner") "completed" (some "outs/out.wav") 5

/-- A pending user-owned job. -/
def jobP : AudioProcessingJob := mkJob "jp" (some 7) none "pending" none 6

/-- A pending guest-owned job. -/
def jobG : AudioProcessingJob := mkJob "jg" none (some "gOwner") "pending" none 1

/-- A pending guest job that nevertheless has an output path set. -/
def jobW : AudioProcessingJob :=
  mkJob "jw" none (some "g") "pending" (some "early") 2

/-- A probe reply where one worker answers but advertises only the
maintenance queue. -/
def snapW : InspectSnapshot :=
  { stats := some ["w1"], active_queues := some [("w1", ["maintenance"])] }

/-- A per-queue probe reply listing only the maintenance queue. -/
def probeQueuesM : Except String (Option (List (String × List String))) :=
  .ok (some [("w1", ["maintenance"])])

/-- A mixed job table for the list endpoint: three jobs of guest `g` (one
completed), one of another guest, one of user 3. -/
def jobsL : List AudioProcessingJob :=
  [mkJob "l1" none (some "g") "pending" none 1,
   mkJob "l2" none (some "g") "completed" (some "o2") 9,
   mkJob "l3" none (some "other") "pending" none 5,
   mkJob "l4" none (some "g") "pending" none 7,
   mkJob "l5" (some 3) none "pending" none 8]

/-- The single combined filter the list query applies: owner scoping and the
optional status filter (a falsy filter string filters nothing). -/
def listQueryFilter (cu : Option Nat) (guest_id : Option String)
    (sf : Option String) (j : AudioProcessingJob) : Bool :=
  (if !(pyFalsyNat cu) then j.user_id == cu else j.guest_id == guest_id) &&
  (match sf with
   | some s => if s.isEmpty then true else j.status == s
   | none => true)

/-! ## General lemmas -/

/-- A string with a nonempty left component of an append is nonempty. -/
theorem append_ne_empty_left (s t : String) (h : s.length ≠ 0) :
    s ++ t ≠ "" := by
  intro he
  have hl := congrArg String.length he
  rw [String.length_append] at hl
  have h0 : String.length "" = 0 := rfl
  omega

/-- `ownershipCheck` passes exactly when the caller owns the job. -/
theorem ownershipCheck_eq_none_iff (job : AudioProcessingJob) (rp : Bool)
    (hg : Option String) (cu : Option Nat) (d : String) :
    ownershipCheck job rp hg cu d = none ↔ callerOwns job rp hg cu := by
  unfold ownershipCheck callerOwns
  cases cu with
  | some uid => by_cases h : job.user_id = some uid <;> simp [h]
  | none =>
    cases hres : resolveGuestHeader rp hg with
    | none => simp [pyFalsy]
    | some g =>
      by_cases hemp : g.isEmpty <;> by_cases hj : job.guest_id = some g <;>
        simp [pyFalsy, hemp, hj]

/-- When `ownershipCheck` fails it raises exactly 403 with its detail. -/
theorem ownershipCheck_some_eq (job : AudioProcessingJob) (rp : Bool)
    (hg : Option String) (cu : Option Nat) (d : String) (e : HTTPError)
    (h : ownershipCheck job rp hg cu d = some e) : e = ⟨403, d⟩ := by
  unfold ownershipCheck at h
  cases cu with
  | some uid =>
    simp only at h
    split at h
    · exact (Option.some.inj h).symm
    · cases h
  | none =>
    simp only at h
    split at h
    · exact (Option.some.inj h).symm
    · split at h
      · exact (Option.some.inj h).symm
      · cases h

/-- A caller who does not own the job is rejected with 403. -/
theorem ownershipCheck_of_not_owns (job : AudioProcessingJob) (rp : Bool)
    (hg : Option String) (cu : Option Nat) (d : String)
    (h : ¬ callerOwns job rp hg cu) :
    ownershipCheck job rp hg cu d = some ⟨403, d⟩ := by
  cases hoc : ownershipCheck job rp hg cu d with
  | none => exact absurd ((ownershipCheck_eq_none_iff job rp hg cu d).mp hoc) h
  | some e => rw [ownershipCheck_some_eq job rp hg cu d e hoc]

/-- A caller with no resolvable identity is rejected with 403 by the inlined
ownership block (not 401). -/
theorem ownershipCheck_no_identity (job : AudioProcessingJob) (rp : Bool)
    (hg : Option String) (d : String)
    (h : pyFalsy (resolveGuestHeader rp hg) = true) :
    ownershipCheck job rp hg none d = some ⟨403, d⟩ := by
  unfold ownershipCheck
  simp [h]

/-! ## Claim theorems -/

/-- C1: the claimed invariant "for every job record created by the upload
operation, exactly one of user_id/guest_id is set — never both, never
neither, for every combination of inputs" fails on the code.  At the
concrete failing input — no authenticated user, a request object present,
and no `X-Guest-ID` header — `request.headers.get` returns `None`, and the
job is persisted with `user_id = None` and `guest_id = None`: neither owner
arm is set.  (The `else str(uuid.uuid4())` fallback only fires when the
request object itself is absent.) -/
theorem upload_ownerless_when_guest_header_missing :
    ((upload_audio env0 "song.wav" none true none none st0).2.jobs.head?.map
      (fun j => (j.user_id, j.guest_id))) = some (none, none) := by rfl

/-- C2: whenever the extension is allowed, the write succeeds, the size is
within the ceiling, and the Celery dispatch raises, the upload still returns
a 201 response (the error is not propagated), and the persisted job has
`status = "failed"`, no dispatch handle, and a nonempty error message — it
is never left pending with no handle and no error. -/
theorem upload_dispatch_failure_marks_job_failed (env : UploadEnv)
    (fn : String) (pt : Option String) (reqP : Bool) (hg : Option String)
    (cu : Option Nat) (st : ServerState) (e : String)
    (hext : strToLower (splitextExt fn) ∈ env.settings.allowed_audio_formats)
    (hw : env.write_result = .ok ())
    (hsz : env.file_size ≤ env.settings.max_file_size_mb * 1024 * 1024)
    (hd : env.dispatch_result = .error e) :
    ∃ resp job rest,
      (upload_audio env fn pt reqP hg cu st).1 = .ok resp ∧
      (upload_audio env fn pt reqP hg cu st).2.jobs = job :: rest ∧
      job.status = "failed" ∧ resp.status = "failed" ∧
      job.job_metadata = none ∧
      ∃ m, job.error_message = some m ∧ m ≠ "" := by
  have h1 : ¬ (strToLower (splitextExt fn) ∉ env.settings.allowed_audio_formats) :=
    not_not_intro hext
  have h2 : ¬ (env.file_size > env.settings.max_file_size_mb * 1024 * 1024) :=
    Nat.not_lt.mpr hsz
  simp only [upload_audio, if_neg h1, hw, hd, if_neg h2]
  refine ⟨_, _, _, rfl, rfl, rfl, rfl, rfl, _, rfl, ?_⟩
  exact append_ne_empty_left _ e (by decide)

/-- C2 witness: the theorem applied at a concrete dispatch failure. -/
theorem upload_dispatch_failure_marks_job_failed_witness :
    ∃ resp job rest,
      (upload_audio envDispatchFail "song.wav" none true (some "g1") none st0).1 = .ok resp ∧
      (upload_audio envDispatchFail "song.wav" none true (some "g1") none st0).2.jobs = job :: rest ∧
      job.status = "failed" ∧ resp.status = "failed" ∧
      job.job_metadata = none ∧
      ∃ m, job.error_message = some m ∧ m ≠ "" :=
  upload_dispatch_failure_marks_job_failed envDispatchFail "song.wav" none true
    (some "g1") none st0 "broker down" (by decide) rfl (by decide) rfl

/-- C3: the claim "a Usage Recorder failure never alters the job record"
fails on the code.  `track_file_upload` is called inside the same `try`
block as the dispatch, so when dispatch succeeds (the Celery task id is
stored on the job) and the recorder then raises, the `except` arm still
runs: the job is flipped to `failed` with a "Failed to queue processing
task" message even though queueing succeeded and the dispatched worker will
process the file. -/
theorem recorder_failure_corrupts_job :
    ((upload_audio envTrackFail "song.wav" none true (some "g1") none st0).2.jobs.head?.map
      (fun j => (j.status, j.error_message, j.job_metadata))) =
      some ("failed",
        some "Failed to queue processing task: usage db unavailable",
        some "task-1") ∧
    errCode (upload_audio envTrackFail "song.wav" none true (some "g1") none st0).1 = none := by
  exact ⟨rfl, rfl⟩

/-- C4: the download failure taxonomy, in source order: 404 NotFound when no
job has the id; 403 Forbidden when the job exists but the caller does not
match the populated owner arm; 400 NotReady (distinct from 403 and 404) when
the owner downloads a job whose status is not `completed`; 500
StorageInconsistency when the job is completed with an output path set but
the referenced file is absent from storage. -/
theorem download_error_taxonomy (jobs : List AudioProcessingJob)
    (storage : List String) (jid : String) (reqP : Bool) (hg : Option String)
    (cu : Option Nat) (gt : Option String) :
    (findJob jobs jid = none →
      download_processed_audio jobs storage jid reqP hg cu gt =
        .error ⟨404, "Job not found"⟩) ∧
    (∀ job, findJob jobs jid = some job → ¬ callerOwns job reqP hg cu →
      download_processed_audio jobs storage jid reqP hg cu gt =
        .error ⟨403, "Not authorized to access this job"⟩) ∧
    (∀ job, findJob jobs jid = some job → callerOwns job reqP hg cu →
      job.status ≠ "completed" →
      download_processed_audio jobs storage jid reqP hg cu gt =
        .error ⟨400, "Job is not completed yet. Current status: " ++ job.status⟩) ∧
    (∀ job p, findJob jobs jid = some job → callerOwns job reqP hg cu →
      job.status = "completed" → job.output_file_path = some p →
      p.isEmpty = false → p ∉ storage →
      download_processed_audio jobs storage jid reqP hg cu gt =
        .error ⟨500, "Processed file not found on server"⟩) ∧
    ((404 : Nat) ≠ 403 ∧ (400 : Nat) ≠ 403 ∧ (400 : Nat) ≠ 404 ∧
     (500 : Nat) ≠ 400 ∧ (500 : Nat) ≠ 403 ∧ (500 : Nat) ≠ 404) := by
  refine ⟨?_, ?_, ?_, ?_, by omega, by omega, by omega, by omega, by omega, by omega⟩
  · intro hfind
    simp only [download_processed_audio, hfind]
  · intro job hfind hno
    simp only [download_processed_audio, hfind,
      ownershipCheck_of_not_owns job reqP hg cu _ hno]
  · intro job hfind hown hst
    simp only [download_processed_audio, hfind,
      (ownershipCheck_eq_none_iff job reqP hg cu _).mpr hown, ne_eq, hst,
      not_false_eq_true, if_true, ite_true]
  · intro job p hfind hown hst hout hpe hmem
    simp only [download_processed_audio, hfind,
      (ownershipCheck_eq_none_iff job reqP hg cu _).mpr hown, hst, hout,
      pyFalsy, hpe, hmem, ne_eq, not_true_eq_false, not_false_eq_true,
      Bool.false_eq_true, if_false, if_true, ite_true, ite_false,
      Option.getD_some]

/-- C4 witness: all four failure arms at concrete inputs. -/
theorem download_error_taxonomy_witness :
    download_processed_audio [] [] "nope" true (some "g") none none =
      .error ⟨404, "Job not found"⟩ ∧
    download_processed_audio [jobC] [] "jc" true (some "intruder") none none =
      .error ⟨403, "Not authorized to access this job"⟩ ∧
    download_processed_audio [jobP] [] "jp" true none (some 7) none =
      .error ⟨400, "Job is not completed yet. Current status: pending"⟩ ∧
    download_processed_audio [jobC] [] "jc" true (some "gOwner") none none =
      .error ⟨500, "Processed file not found on server"⟩ := by
  refine ⟨(download_error_taxonomy [] [] "nope" true (some "g") none none).1 rfl,
    (download_error_taxonomy [jobC] [] "jc" true (some "intruder") none none).2.1
      jobC rfl (by decide),
    (download_error_taxonomy [jobP] [] "jp" true none (some 7) none).2.2.1
      jobP rfl (by decide) (by decide),
    (download_error_taxonomy [jobC] [] "jc" true (some "gOwner") none none).2.2.2.1
      jobC "outs/out.wav" rfl (by decide) rfl rfl rfl (by decide)⟩

/-- C5 counterexample: the claim says every ownership-requiring operation
fails with Unauthenticated (401) when the caller presents neither a user
credential nor a guest header.  On the code, `get_job_status` for an
existing job with no identity at all returns 403 Forbidden, not 401: the
per-job endpoints only have the 403 arm. -/
theorem status_no_identity_forbidden_not_unauthenticated :
    errCode (get_job_status [jobG] "jg" true none none) = some 403 ∧
    some (403 : Nat) ≠ some 401 := ⟨rfl, by decide⟩

/-- C5 amended: when no identity is resolvable, only the list operation
fails with 401 Unauthenticated; get_status, download, rename and delete
return 404 when the job id does not exist and otherwise 403 Forbidden. -/
theorem no_identity_behavior (jobs : List AudioProcessingJob)
    (storage : List String) (skip limit : Nat) (sf : Option String)
    (jid nm : String) (reqP : Bool) (hg : Option String) (gt : Option String)
    (hga : pyFalsy (resolveGuestHeader reqP hg) = true) :
    (list_projects jobs skip limit sf reqP hg none =
      .error ⟨401, "Not authenticated"⟩) ∧
    (findJob jobs jid = none →
      errCode (get_job_status jobs jid reqP hg none) = some 404 ∧
      errCode (download_processed_audio jobs storage jid reqP hg none gt) = some 404 ∧
      errCode (rename_project jobs jid nm reqP hg none).1 = some 404 ∧
      errCode (delete_project jobs storage jid reqP hg none).1 = some 404) ∧
    (∀ job, findJob jobs jid = some job →
      errCode (get_job_status jobs jid reqP hg none) = some 403 ∧
      errCode (download_processed_audio jobs storage jid reqP hg none gt) = some 403 ∧
      errCode (rename_project jobs jid nm reqP hg none).1 = some 403 ∧
      errCode (delete_project jobs storage jid reqP hg none).1 = some 403) := by
  refine ⟨?_, ?_, ?_⟩
  · simp only [list_projects, pyFalsyNat, Option.isNone_none, if_true, ite_true,
      hga, Bool.and_self]
  · intro hfind
    refine ⟨?_, ?_, ?_, ?_⟩ <;>
      simp only [get_job_status, download_processed_audio, rename_project,
        delete_project, hfind, errCode]
  · intro job hfind
    refine ⟨?_, ?_, ?_, ?_⟩ <;>
      simp only [get_job_status, download_processed_audio, rename_project,
        delete_project, hfind, ownershipCheck_no_identity job reqP hg _ hga,
        errCode]

/-- C5 amended witness: the theorem applied with an empty header against an
existing job id, a missing job id, and the list endpoint. -/
theorem no_identity_behavior_witness :
    (list_projects [jobG] 0 50 none true none none =
      .error ⟨401, "Not authenticated"⟩) ∧
    errCode (get_job_status [jobG] "zz" true none none) = some 404 ∧
    errCode (get_job_status [jobG] "jg" true none none) = some 403 ∧
    errCode (delete_project [jobG] [] "jg" true none none).1 = some 403 :=
  ⟨(no_identity_behavior [jobG] [] 0 50 none "jg" "n" true none none rfl).1,
   ((no_identity_behavior [jobG] [] 0 50 none "zz" "n" true none none rfl).2.1 rfl).1,
   ((no_identity_behavior [jobG] [] 0 50 none "jg" "n" true none none rfl).2.2 jobG rfl).1,
   ((no_identity_behavior [jobG] [] 0 50 none "jg" "n" true none none rfl).2.2 jobG rfl).2.2.2⟩

/-- C6: for every job the caller owns, the status view reports
`output_available = (status == "completed" && output_path is set)`, and in
particular `false` whenever the status is not `completed`, regardless of the
output path. -/
theorem status_output_available (jobs : List AudioProcessingJob)
    (jid : String) (reqP : Bool) (hg : Option String) (cu : Option Nat)
    (job : AudioProcessingJob) (v : AudioJobStatusResponse)
    (hfind : findJob jobs jid = some job)
    (hok : get_job_status jobs jid reqP hg cu = .ok v) :
    v.status = job.status ∧
    v.output_available = (job.status == "completed" && job.output_file_path.isSome) ∧
    (job.status ≠ "completed" → v.output_available = false) := by
  unfold get_job_status at hok
  simp only [hfind] at hok
  cases hoc : ownershipCheck job reqP hg cu "Not authorized to access this job" with
  | some e => simp only [hoc] at hok; cases hok
  | none =>
    simp only [hoc] at hok
    cases hok
    refine ⟨rfl, rfl, ?_⟩
    intro hne
    have hb : (job.status == "completed") = false := beq_eq_false_iff_ne.mpr hne
    simp [hb]

/-- C6 witness: a pending job with an output path set still reports
`output_available = false`. -/
theorem status_output_available_witness :
    ∃ v, get_job_status [jobW] "jw" true (some "g") none = .ok v ∧
      v.output_available = false := by
  refine ⟨_, rfl, ?_⟩
  exact (status_output_available [jobW] "jw" true (some "g") none jobW _
    rfl rfl).2.2 (by decide)

/-- The two successive query filters collapse to the single combined
filter. -/
theorem statusFiltered_ownerScoped_eq_filter (jobs : List AudioProcessingJob)
    (uid : Option Nat) (gid : Option String) (sf : Option String) :
    statusFiltered (ownerScopedQuery jobs uid gid) sf =
      jobs.filter (listQueryFilter uid gid sf) := by
  unfold statusFiltered ownerScopedQuery listQueryFilter
  cases sf with
  | none =>
    by_cases hu : pyFalsyNat uid = true <;> simp [hu, Bool.and_true]
  | some s =>
    by_cases hs : s.isEmpty = true <;> by_cases hu : pyFalsyNat uid = true <;>
      simp [hs, hu, Bool.and_true, List.filter_filter] <;>
      exact List.filter_congr (fun a _ => by rw [Bool.and_comm])

/-- In the success case, the list endpoint returns exactly the window of the
sorted, owner- and status-filtered table (and the identity guard passed). -/
theorem list_projects_ok_form (jobs : List AudioProcessingJob)
    (skip limit : Nat) (sf : Option String) (reqP : Bool) (hg : Option String)
    (cu : Option Nat) (l : List AudioProcessingJob)
    (h : list_projects jobs skip limit sf reqP hg cu = .ok l) :
    l = (((jobs.filter (listQueryFilter cu
        (if cu.isNone then resolveGuestHeader reqP hg else none) sf)).insertionSort
        createdDesc).drop skip).take limit ∧
    (pyFalsyNat cu && pyFalsy (if cu.isNone then resolveGuestHeader reqP hg else none)) = false := by
  simp only [list_projects] at h
  by_cases hid : (pyFalsyNat cu && pyFalsy
      (if cu.isNone then resolveGuestHeader reqP hg else none)) = true
  · rw [if_pos hid] at h
    cases h
  · rw [if_neg hid] at h
    rw [statusFiltered_ownerScoped_eq_filter] at h
    exact ⟨(Except.ok.inj h).symm, Bool.not_eq_true _ ▸ hid⟩

/-- C7: every list returned for an owner contains only jobs of that owner
(the authenticated user arm, or the resolved guest-header arm), matches the
status filter when one is supplied, is sorted by `created_at` descending,
returns at most `limit` entries, and is exactly the offset/limit window of a
sorted permutation of the owner- and status-filtered table. -/
theorem list_projects_spec (jobs : List AudioProcessingJob)
    (skip limit : Nat) (sf : Option String) (reqP : Bool) (hg : Option String)
    (cu : Option Nat) (l : List AudioProcessingJob)
    (h : list_projects jobs skip limit sf reqP hg cu = .ok l) :
    (∀ uid, cu = some uid → ∀ j ∈ l, j.user_id = some uid) ∧
    (cu = none → ∀ j ∈ l, j.guest_id = resolveGuestHeader reqP hg) ∧
    (∀ s, sf = some s → s.isEmpty = false → ∀ j ∈ l, j.status = s) ∧
    List.Sorted createdDesc l ∧
    l.length ≤ limit ∧
    (∃ full, full.Perm (jobs.filter (listQueryFilter cu
        (if cu.isNone then resolveGuestHeader reqP hg else none) sf)) ∧
      List.Sorted createdDesc full ∧ l = (full.drop skip).take limit) := by
  obtain ⟨hl, hguard⟩ := list_projects_ok_form jobs skip limit sf reqP hg cu l h
  have hperm : ((jobs.filter (listQueryFilter cu
      (if cu.isNone then resolveGuestHeader reqP hg else none) sf)).insertionSort
      createdDesc).Perm (jobs.filter (listQueryFilter cu
      (if cu.isNone then resolveGuestHeader reqP hg else none) sf)) :=
    List.perm_insertionSort createdDesc _
  have hsortedfull : List.Sorted createdDesc
      ((jobs.filter (listQueryFilter cu
        (if cu.isNone then resolveGuestHeader reqP hg else none) sf)).insertionSort
        createdDesc) :=
    List.sorted_insertionSort createdDesc _
  have hmem : ∀ j ∈ l, listQueryFilter cu
      (if cu.isNone then resolveGuestHeader reqP hg else none) sf j = true := by
    intro j hj
    rw [hl] at hj
    have h1 := List.mem_of_mem_drop (List.mem_of_mem_take hj)
    exact (List.mem_filter.mp (hperm.mem_iff.mp h1)).2
  have hsub : l.Sublist ((jobs.filter (listQueryFilter cu
      (if cu.isNone then resolveGuestHeader reqP hg else none) sf)).insertionSort
      createdDesc) := by
    rw [hl]
    exact (List.take_sublist _ _).trans (List.drop_sublist _ _)
  refine ⟨?_, ?_, ?_, List.Pairwise.sublist hsub hsortedfull,
    hl ▸ List.length_take_le _ _, _, hperm, hsortedfull, hl⟩
  · intro uid hcu j hj
    subst hcu
    by_cases h0 : uid = 0
    · subst h0
      simp [pyFalsyNat, pyFalsy] at hguard
    · have hthis := hmem j hj
      unfold listQueryFilter at hthis
      have hpf : pyFalsyNat (some uid) = false := by
        simp [pyFalsyNat, h0]
      rw [hpf] at hthis
      simp only [Bool.not_false, if_true, ite_true, Bool.and_eq_true] at hthis
      exact eq_of_beq hthis.1
  · intro hcu j hj
    subst hcu
    have hthis := hmem j hj
    unfold listQueryFilter at hthis
    simp only [pyFalsyNat, Bool.not_true, Option.isNone_none, if_true,
      ite_true, if_false, ite_false, Bool.and_eq_true] at hthis
    exact eq_of_beq hthis.1
  · intro s hsf hse j hj
    subst hsf
    have hthis := hmem j hj
    unfold listQueryFilter at hthis
    rw [Bool.and_eq_true] at hthis
    have h2 := hthis.2
    simp only [hse, Bool.false_eq_true, if_false, ite_false] at h2
    exact eq_of_beq h2

/-- C7 witness: the guest `g` listing of `jobsL` with a `pending` filter and
limit 2 returns exactly its two pending `g` jobs, newest first. -/
theorem list_projects_spec_witness :
    list_projects jobsL 0 2 (some "pending") true (some "g") none =
      .ok [mkJob "l4" none (some "g") "pending" none 7,
           mkJob "l1" none (some "g") "pending" none 1] ∧
    (∀ j ∈ [mkJob "l4" none (some "g") "pending" none 7,
            mkJob "l1" none (some "g") "pending" none 1],
       j.guest_id = some "g" ∧ j.status = "pending") ∧
    List.Sorted createdDesc
      [mkJob "l4" none (some "g") "pending" none 7,
       mkJob "l1" none (some "g") "pending" none 1] ∧
    ([mkJob "l4" none (some "g") "pending" none 7,
      mkJob "l1" none (some "g") "pending" none 1] : List AudioProcessingJob).length ≤ 2 := by
  have h : list_projects jobsL 0 2 (some "pending") true (some "g") none =
      .ok [mkJob "l4" none (some "g") "pending" none 7,
           mkJob "l1" none (some "g") "pending" none 1] := rfl
  have hs := list_projects_spec jobsL 0 2 (some "pending") true (some "g") none _ h
  exact ⟨h,
    fun j hj => ⟨hs.2.1 rfl j hj, hs.2.2.1 "pending" rfl (by decide) j hj⟩,
    hs.2.2.2.1, hs.2.2.2.2.1⟩

/-- When the availability check reports unavailable, it always carries a
nonempty error message. -/
theorem check_workers_error_of_unavailable
    (pw : Except String InspectSnapshot)
    (h : (check_workers_available_sync pw).available = false) :
    ∃ m, (check_workers_available_sync pw).error = some m ∧ m ≠ "" := by
  unfold check_workers_available_sync at h ⊢
  cases pw with
  | error e => exact ⟨_, rfl, append_ne_empty_left _ e (by decide)⟩
  | ok snap =>
    cases hs : snap.stats with
    | none =>
      simp only [hs]
      exact ⟨_, rfl, by decide⟩
    | some names =>
      by_cases hn : names.isEmpty = true
      · simp only [hs, hn, if_true, ite_true]
        exact ⟨_, rfl, by decide⟩
      · simp only [hs, hn, Bool.false_eq_true, if_false, ite_false] at h
        simp at h

/-- C8 counterexample: workers are available but no worker listens on the
audio_processing queue.  The summary is "unhealthy", yet its message is
"Workers are operational" and the underlying error field is None: the
message does not mirror any error, refuting the second half of the claim. -/
theorem health_unhealthy_message_not_error :
    (get_worker_health_summary_sync (.ok snapW) probeQueuesM probeQueuesM
      (.ok (none, none))).status = "unhealthy" ∧
    (get_worker_health_summary_sync (.ok snapW) probeQueuesM probeQueuesM
      (.ok (none, none))).message = some "Workers are operational" ∧
    (get_worker_health_summary_sync (.ok snapW) probeQueuesM probeQueuesM
      (.ok (none, none))).error = none := ⟨rfl, rfl, rfl⟩

/-- C8 amended: the summary is "healthy" exactly when workers are available
and the audio_processing queue has a listener; when workers are unavailable
the message mirrors the (always nonempty) underlying error; but when workers
are available and the summary is unhealthy only because the audio queue has
no listener, the message is the fixed string "Workers are operational". -/
theorem health_summary_status_and_message
    (pw : Except String InspectSnapshot)
    (pa pm : Except String (Option (List (String × List String))))
    (pl : Except String ((Option (List (String × List TaskInfo))) ×
      (Option (List (String × List TaskInfo))))) :
    ((get_worker_health_summary_sync pw pa pm pl).status = "healthy" ↔
      ((check_workers_available_sync pw).available = true ∧
        check_queue_available_sync pa "audio_processing" = true)) ∧
    ((check_workers_available_sync pw).available = false →
      (get_worker_health_summary_sync pw pa pm pl).message =
        (check_workers_available_sync pw).error ∧
      ∃ m, (check_workers_available_sync pw).error = some m ∧ m ≠ "") ∧
    ((check_workers_available_sync pw).available = true →
      (get_worker_health_summary_sync pw pa pm pl).message =
        some "Workers are operational") := by
  refine ⟨?_, ?_, ?_⟩
  · by_cases ha : (check_workers_available_sync pw).available = true <;>
      by_cases hq : check_queue_available_sync pa "audio_processing" = true <;>
        simp [get_worker_health_summary_sync, ha, hq]
  · intro ha
    refine ⟨?_, check_workers_error_of_unavailable pw ha⟩
    simp [get_worker_health_summary_sync, ha]
  · intro ha
    simp [get_worker_health_summary_sync, ha]

/-- C8 amended witness: an unreachable broker mirrors the connection error;
an available pool reports the fixed operational message. -/
theorem health_summary_status_and_message_witness :
    (get_worker_health_summary_sync (.error "conn refused") probeQueuesM
      probeQueuesM (.ok (none, none))).message =
      (check_workers_available_sync (.error "conn refused")).error ∧
    (get_worker_health_summary_sync (.ok snapW) probeQueuesM probeQueuesM
      (.ok (none, none))).message = some "Workers are operational" :=
  ⟨((health_summary_status_and_message (.error "conn refused") probeQueuesM
      probeQueuesM (.ok (none, none))).2.1 rfl).1,
   (health_summary_status_and_message (.ok snapW) probeQueuesM probeQueuesM
      (.ok (none, none))).2.2 rfl⟩

/-- C9: a validation rejection leaves no trace.  An extension outside the
allow-list fails 400 with the state untouched (nothing was written); a size
above the ceiling fails 413 and the state equals the initial state exactly:
the just-written file is removed again and no job row exists. -/
theorem upload_validation_leaves_no_trace (env : UploadEnv) (fn : String)
    (pt : Option String) (reqP : Bool) (hg : Option String) (cu : Option Nat)
    (st : ServerState) :
    (strToLower (splitextExt fn) ∉ env.settings.allowed_audio_formats →
      errCode (upload_audio env fn pt reqP hg cu st).1 = some 400 ∧
      (upload_audio env fn pt reqP hg cu st).2 = st) ∧
    (strToLower (splitextExt fn) ∈ env.settings.allowed_audio_formats →
      env.write_result = .ok () →
      env.settings.max_file_size_mb * 1024 * 1024 < env.file_size →
      errCode (upload_audio env fn pt reqP hg cu st).1 = some 413 ∧
      (upload_audio env fn pt reqP hg cu st).2 = st) := by
  constructor
  · intro hext
    constructor
    · simp only [upload_audio, if_pos hext, errCode]
    · simp only [upload_audio, if_pos hext]
  · intro hext hw hsz
    have h1 : ¬ (strToLower (splitextExt fn) ∉ env.settings.allowed_audio_formats) :=
      not_not_intro hext
    constructor
    · simp only [upload_audio, if_neg h1, hw, if_pos hsz, errCode]
    · simp only [upload_audio, if_neg h1, hw, if_pos hsz]
      simp [List.erase_cons_head]

/-- C9 witness: a `.xyz` upload and an oversized `.wav` upload both leave
the state untouched. -/
theorem upload_validation_leaves_no_trace_witness :
    (errCode (upload_audio env0 "song.xyz" none true (some "g1") none st0).1 = some 400 ∧
     (upload_audio env0 "song.xyz" none true (some "g1") none st0).2 = st0) ∧
    (errCode (upload_audio envTooBig "song.wav" none true (some "g1") none st0).1 = some 413 ∧
     (upload_audio envTooBig "song.wav" none true (some "g1") none st0).2 = st0) :=
  ⟨(upload_validation_leaves_no_trace env0 "song.xyz" none true (some "g1") none st0).1
      (by decide),
   (upload_validation_leaves_no_trace envTooBig "song.wav" none true (some "g1") none st0).2
      (by decide) rfl (by decide)⟩

/-- C10: when writing the uploaded bytes to storage raises, the upload fails
with a 500 internal error and no job row is ever created — the row is only
persisted after the write succeeds and the size check passes. -/
theorem upload_write_failure_no_record (env : UploadEnv) (fn : String)
    (pt : Option String) (reqP : Bool) (hg : Option String) (cu : Option Nat)
    (st : ServerState) (e : String)
    (hext : strToLower (splitextExt fn) ∈ env.settings.allowed_audio_formats)
    (hw : env.write_result = .error e) :
    (upload_audio env fn pt reqP hg cu st).1 =
      .error ⟨500, "Failed to save file: " ++ e⟩ ∧
    (upload_audio env fn pt reqP hg cu st).2.jobs = st.jobs := by
  have h1 : ¬ (strToLower (splitextExt fn) ∉ env.settings.allowed_audio_formats) :=
    not_not_intro hext
  constructor
  · simp only [upload_audio, if_neg h1, hw]
  · simp only [upload_audio, if_neg h1, hw]
    by_cases hb : env.leftover_on_write_failure = true <;> simp [hb]

/-- C10 witness: a failing disk write on an allowed extension. -/
theorem upload_write_failure_no_record_witness :
    (upload_audio envWriteFail "song.wav" none true (some "g1") none st0).1 =
      .error ⟨500, "Failed to save file: disk full"⟩ ∧
    (upload_audio envWriteFail "song.wav" none true (some "g1") none st0).2.jobs = st0.jobs :=
  upload_write_failure_no_record envWriteFail "song.wav" none true (some "g1")
    none st0 "disk full" (by decide) rfl

end WazzAudio
